import Mathlib

/-!
Shallow embedding of the scooter rental service
(`scooter_module.py`, `station_module.py`, `system_module.py`).

Python floats are modelled as rationals (`ℚ`); the pricing multipliers
0.9, 1.15 and 0.95 become `9/10`, `23/20` and `19/20`.  A Python method
that either mutates its object or raises is modelled as a pure function
returning the raised error (if any) together with the post-state; a
raise happens before any mutation, so the post-state at a raise is the
pre-state.  Python dicts are modelled as association lists with
insertion-order update semantics.
-/

namespace ScooterService

/-- Python `str.lower()` as used on the factory's type tag (ASCII). -/
def strLower (s : String) : String := String.mk (s.data.map Char.toLower)

/-- The one extra attribute each scooter subclass carries:
`CityScooter._max_speed`, `OffRoadScooter._tire_type`,
`FoldableScooter._weight`. -/
inductive ScooterExtra where
  | city (max_speed : ℚ)
  | off_road (tire_type : String)
  | foldable (weight : ℚ)
deriving DecidableEq

/-- State of a `Scooter` object (`scooter_module.py`, class `Scooter`
plus the one subclass-specific field). -/
structure Scooter where
  scooter_id : String
  model : String
  battery_level : ℚ
  hourly_rate : ℚ
  is_available : Bool
  extra : ScooterExtra
deriving DecidableEq

/-- Python `Scooter.__init__`: stores the four common fields, sets
`_is_available = True`.  Note: it does NOT validate `battery_level`. -/
def Scooter.init (scooter_id model : String) (battery_level hourly_rate : ℚ)
    (extra : ScooterExtra) : Scooter :=
  ⟨scooter_id, model, battery_level, hourly_rate, true, extra⟩

/-- The error raised by the `battery_level` setter (`ValueError`,
named `InvalidBatteryLevel` in the spec). -/
inductive BatteryError where
  | InvalidBatteryLevel
deriving DecidableEq

/-- Python `Scooter.battery_level` setter: raises unless `0 <= value <= 100`,
otherwise assigns.  Returns the raised error (if any) and the object
state after the call; the raise precedes the assignment, so on error
the state is unchanged. -/
def Scooter.set_battery_level (s : Scooter) (value : ℚ) :
    Option BatteryError × Scooter :=
  if ¬ (0 ≤ value ∧ value ≤ 100) then (some BatteryError.InvalidBatteryLevel, s)
  else (none, { s with battery_level := value })

/-- Python `Scooter.is_available` setter: plain assignment, no validation. -/
def Scooter.set_is_available (s : Scooter) (value : Bool) : Scooter :=
  { s with is_available := value }

/-- Python `CityScooter.calculate_rental_cost`: `base_cost * 0.9 if hours > 3
else base_cost`. -/
def CityScooter.calculate_rental_cost (s : Scooter) (hours : ℚ) : ℚ :=
  let base_cost := s.hourly_rate * hours
  if hours > 3 then base_cost * (9/10) else base_cost

/-- Python `OffRoadScooter.calculate_rental_cost`: `base_cost * 1.15`. -/
def OffRoadScooter.calculate_rental_cost (s : Scooter) (hours : ℚ) : ℚ :=
  let base_cost := s.hourly_rate * hours
  base_cost * (23/20)

/-- Python `FoldableScooter.calculate_rental_cost`: `base_cost * 0.95`. -/
def FoldableScooter.calculate_rental_cost (s : Scooter) (hours : ℚ) : ℚ :=
  let base_cost := s.hourly_rate * hours
  base_cost * (19/20)

/-- Dynamic dispatch of `calculate_rental_cost` on the concrete
subclass. -/
def Scooter.calculate_rental_cost (s : Scooter) (hours : ℚ) : ℚ :=
  match s.extra with
  | ScooterExtra.city _ => CityScooter.calculate_rental_cost s hours
  | ScooterExtra.off_road _ => OffRoadScooter.calculate_rental_cost s hours
  | ScooterExtra.foldable _ => FoldableScooter.calculate_rental_cost s hours

/-- The three registered subclasses (`ScooterMeta._registry`). -/
inductive ScooterClass where
  | CityScooter
  | OffRoadScooter
  | FoldableScooter
deriving DecidableEq

/-- Python `ScooterMeta.get_class`: registry lookup after lowercasing the tag;
the registry maps `"city"`, `"off_road"`, `"foldable"` to the three
subclasses. -/
def ScooterMeta.get_class (scooter_type : String) : Option ScooterClass :=
  if strLower scooter_type = "city" then some ScooterClass.CityScooter
  else if strLower scooter_type = "off_road" then some ScooterClass.OffRoadScooter
  else if strLower scooter_type = "foldable" then some ScooterClass.FoldableScooter
  else none

/-- Errors of `ScooterFactory.create_scooter`: `UnknownVariant` and
`MissingParameter` are the two `ValueError`s it raises itself;
`UnexpectedKeyword` is the `TypeError` Python raises when
`scooter_class(..., **kwargs)` is called with a keyword argument the
subclass `__init__` does not accept. -/
inductive CreateError where
  | UnknownVariant
  | MissingParameter
  | UnexpectedKeyword
deriving DecidableEq

/-- The `**kwargs` mapping handed to the factory, restricted to the
three recognised extra-attribute names. -/
structure ExtraParams where
  max_speed : Option ℚ
  tire_type : Option String
  weight : Option ℚ
deriving DecidableEq

/-- The call `scooter_class(scooter_id, model, battery_level,
hourly_rate, **kwargs)`: each subclass `__init__` accepts exactly its
own extra keyword, so any other supplied keyword raises `TypeError`
(and a missing one would too). -/
def ScooterClass.construct (cls : ScooterClass) (scooter_id model : String)
    (battery_level hourly_rate : ℚ) (kwargs : ExtraParams) :
    Except CreateError Scooter :=
  match cls, kwargs with
  | ScooterClass.CityScooter, ⟨some ms, none, none⟩ =>
      Except.ok (Scooter.init scooter_id model battery_level hourly_rate (ScooterExtra.city ms))
  | ScooterClass.OffRoadScooter, ⟨none, some tt, none⟩ =>
      Except.ok (Scooter.init scooter_id model battery_level hourly_rate (ScooterExtra.off_road tt))
  | ScooterClass.FoldableScooter, ⟨none, none, some w⟩ =>
      Except.ok (Scooter.init scooter_id model battery_level hourly_rate (ScooterExtra.foldable w))
  | _, _ => Except.error CreateError.UnexpectedKeyword

/-- Python `ScooterFactory.create_scooter`: looks the tag up in the registry
(`UnknownVariant` if absent), checks the variant's required parameter is
among the supplied kwargs (`MissingParameter` if not), then calls the
subclass constructor with all supplied kwargs. -/
def ScooterFactory.create_scooter (scooter_type scooter_id model : String)
    (battery_level hourly_rate : ℚ) (kwargs : ExtraParams) :
    Except CreateError Scooter :=
  match ScooterMeta.get_class scooter_type with
  | none => Except.error CreateError.UnknownVariant
  | some cls =>
    let missing :=
      match cls with
      | ScooterClass.CityScooter => kwargs.max_speed.isNone
      | ScooterClass.OffRoadScooter => kwargs.tire_type.isNone
      | ScooterClass.FoldableScooter => kwargs.weight.isNone
    if missing then Except.error CreateError.MissingParameter
    else cls.construct scooter_id model battery_level hourly_rate kwargs

/-- Whether a factory call returned a scooter. -/
def createSucceeds (r : Except CreateError Scooter) : Bool :=
  match r with
  | Except.ok _ => true
  | Except.error _ => false

/-- The rental-change request dict built by
`RentalSystem.process_rental_change`. -/
structure RentalChangeRequest where
  rental_id : String
  hours : ℚ
  scooter : Scooter
  client_id : String
deriving DecidableEq

/-- The three authority levels, used to name which handler printed the
approval message. -/
inductive Authority where
  | operator
  | manager
  | admin
deriving DecidableEq

/-- The chain-of-responsibility handlers of `system_module.py`: each
concrete handler with its optional `_next_handler`. -/
inductive Handler where
  | OperatorHandler (next : Option Handler)
  | ManagerHandler (next : Option Handler)
  | AdminHandler (next : Option Handler)

/-- Python `Handler.handle`: Operator approves when `request['hours'] < 4`,
Manager approves when the scooter's rental cost at the requested hours
is `<= 1000`, Admin always approves; a declining handler delegates to
its `_next_handler`, returning `False` when there is none. -/
def Handler.handle : Handler → RentalChangeRequest → Bool
  | Handler.OperatorHandler next, request =>
    if request.hours < 4 then true
    else
      match next with
      | some h => h.handle request
      | none => false
  | Handler.ManagerHandler next, request =>
    if request.scooter.calculate_rental_cost request.hours ≤ 1000 then true
    else
      match next with
      | some h => h.handle request
      | none => false
  | Handler.AdminHandler _, _ => true

/-- Which authority prints the approval message during
`Handler.handle` (the decision trail); `none` when the chain runs out
and returns `False`. -/
def Handler.approver : Handler → RentalChangeRequest → Option Authority
  | Handler.OperatorHandler next, request =>
    if request.hours < 4 then some Authority.operator
    else
      match next with
      | some h => h.approver request
      | none => none
  | Handler.ManagerHandler next, request =>
    if request.scooter.calculate_rental_cost request.hours ≤ 1000 then some Authority.manager
    else
      match next with
      | some h => h.approver request
      | none => none
  | Handler.AdminHandler _, _ => some Authority.admin

/-- The chain built by `RentalSystem._setup_handlers`:
Operator -> Manager -> Admin. -/
def RentalSystem.change_handler : Handler :=
  Handler.OperatorHandler (some (Handler.ManagerHandler (some (Handler.AdminHandler none))))

/-- Python dict lookup `d.get(k)` / `d[k]`, dicts modelled as
association lists in insertion order. -/
def dictGet {α : Type} : List (String × α) → String → Option α
  | [], _ => none
  | (k', v) :: rest, k => if k' = k then some v else dictGet rest k

/-- Python dict assignment `d[k] = v`: replaces the value in place when
the key exists, appends otherwise. -/
def dictSet {α : Type} : List (String × α) → String → α → List (String × α)
  | [], k, v => [(k, v)]
  | (k', v') :: rest, k, v =>
    if k' = k then (k, v) :: rest else (k', v') :: dictSet rest k v

/-- Python `Location` (`station_module.py`). -/
structure Location where
  address : String
  latitude : ℚ
  longitude : ℚ
deriving DecidableEq

/-- Errors raised (`ValueError`) by the station and system registry
layer. -/
inductive RegistryError where
  | StationExists
  | ClientExists
  | StationNotFound
  | RentalNotFound
  | ScooterNotFound
  | ScooterUnavailable
  | StationFull
  | ScooterAlreadyAtStation
deriving DecidableEq

/-- State of a `RentalStation` object. -/
structure RentalStation where
  station_id : String
  location : Location
  capacity : ℕ
  scooters : List Scooter
deriving DecidableEq

/-- The loop of `RentalStation.rent_scooter`: find the first scooter
with the given id, raise if it is unavailable, otherwise set
`is_available = False` and return `calculate_rental_cost(hours)`
together with the updated fleet; raise when no scooter matches. -/
def rentLoop : List Scooter → String → ℚ → Except RegistryError (ℚ × List Scooter)
  | [], _, _ => Except.error RegistryError.ScooterNotFound
  | scooter :: rest, scooter_id, hours =>
    if scooter.scooter_id = scooter_id then
      if ¬ scooter.is_available then Except.error RegistryError.ScooterUnavailable
      else
        let scooter' := scooter.set_is_available false
        Except.ok (scooter'.calculate_rental_cost hours, scooter' :: rest)
    else
      match rentLoop rest scooter_id hours with
      | Except.error e => Except.error e
      | Except.ok (cost, rest') => Except.ok (cost, scooter :: rest')

/-- Python `RentalStation.rent_scooter`, returning the cost and the station
state after the call. -/
def RentalStation.rent_scooter (st : RentalStation) (scooter_id : String) (hours : ℚ) :
    Except RegistryError (ℚ × RentalStation) :=
  match rentLoop st.scooters scooter_id hours with
  | Except.error e => Except.error e
  | Except.ok (cost, scooters') => Except.ok (cost, { st with scooters := scooters' })

/-- Python `RentalStation.add_scooter`: capacity and duplicate-id checks, then
append. -/
def RentalStation.add_scooter (st : RentalStation) (scooter : Scooter) :
    Except RegistryError RentalStation :=
  if st.capacity ≤ st.scooters.length then Except.error RegistryError.StationFull
  else if st.scooters.any (fun s => s.scooter_id = scooter.scooter_id) then
    Except.error RegistryError.ScooterAlreadyAtStation
  else Except.ok { st with scooters := st.scooters ++ [scooter] }

/-- A client record (`RentalSystem.register_client`). -/
structure Client where
  name : String
  phone : String
deriving DecidableEq

/-- A rental record as stored in `RentalSystem.rentals`. -/
structure Rental where
  client_id : String
  station_id : String
  scooter_id : String
  hours : ℚ
  cost : ℚ
deriving DecidableEq

/-- State of the `RentalSystem` registries (the handler chain is fixed
by `_setup_handlers` at construction and never mutated, so it is the
constant `RentalSystem.change_handler`). -/
structure RentalSystem where
  stations : List (String × RentalStation)
  clients : List (String × Client)
  rentals : List (String × Rental)
deriving DecidableEq

/-- The scooter-search loop of `process_rental_change` / `add_rental`:
first scooter of the station's fleet with the given id. -/
def findScooter : List Scooter → String → Option Scooter
  | [], _ => none
  | s :: rest, scooter_id =>
    if s.scooter_id = scooter_id then some s else findScooter rest scooter_id

/-- Python `RentalSystem.add_station`. -/
def RentalSystem.add_station (sys : RentalSystem) (station : RentalStation) :
    Except RegistryError RentalSystem :=
  if (dictGet sys.stations station.station_id).isSome then
    Except.error RegistryError.StationExists
  else Except.ok { sys with stations := dictSet sys.stations station.station_id station }

/-- Python `RentalSystem.register_client`. -/
def RentalSystem.register_client (sys : RentalSystem) (client_id name phone : String) :
    Except RegistryError RentalSystem :=
  if (dictGet sys.clients client_id).isSome then
    Except.error RegistryError.ClientExists
  else Except.ok { sys with clients := dictSet sys.clients client_id ⟨name, phone⟩ }

/-- Python `RentalSystem.process_rental_change`: look the rental, its station
and its scooter up, build the request dict, run the handler chain; on
approval overwrite the rental's `hours` and recompute its `cost`. -/
def RentalSystem.process_rental_change (sys : RentalSystem) (rental_id : String)
    (new_hours : ℚ) : Except RegistryError (Bool × RentalSystem) :=
  match dictGet sys.rentals rental_id with
  | none => Except.error RegistryError.RentalNotFound
  | some rental =>
    match dictGet sys.stations rental.station_id with
    | none => Except.error RegistryError.StationNotFound
    | some station =>
      match findScooter station.scooters rental.scooter_id with
      | none => Except.error RegistryError.ScooterNotFound
      | some scooter =>
        let request : RentalChangeRequest :=
          ⟨rental_id, new_hours, scooter, rental.client_id⟩
        let approved := RentalSystem.change_handler.handle request
        if approved then
          let rental' :=
            { rental with
              hours := new_hours
              cost := scooter.calculate_rental_cost new_hours }
          Except.ok (true, { sys with rentals := dictSet sys.rentals rental_id rental' })
        else Except.ok (false, sys)

/-- Python `RentalSystem.add_rental`: look the station and scooter up, check
availability, rent through the station (which flips the scooter's
availability and computes the cost), then store the rental record. -/
def RentalSystem.add_rental (sys : RentalSystem) (rental_id client_id station_id scooter_id : String)
    (hours : ℚ) : Except RegistryError RentalSystem :=
  match dictGet sys.stations station_id with
  | none => Except.error RegistryError.StationNotFound
  | some station =>
    match findScooter station.scooters scooter_id with
    | none => Except.error RegistryError.ScooterNotFound
    | some scooter =>
      if ¬ scooter.is_available then Except.error RegistryError.ScooterUnavailable
      else
        match station.rent_scooter scooter_id hours with
        | Except.error e => Except.error e
        | Except.ok (cost, station') =>
          Except.ok
            { sys with
              stations := dictSet sys.stations station_id station'
              rentals := dictSet sys.rentals rental_id
                ⟨client_id, station_id, scooter_id, hours, cost⟩ }

/-- The consistency invariant of claim C10: a rental record's stored
cost is the referenced scooter's rental cost at the record's stored
hours, whenever that station and scooter resolve. -/
def rentalConsistent (sys : RentalSystem) (r : Rental) : Prop :=
  ∀ st, dictGet sys.stations r.station_id = some st →
    ∀ sc, findScooter st.scooters r.scooter_id = some sc →
      r.cost = sc.calculate_rental_cost r.hours

/-- Every stored rental record is consistent. -/
def Inv (sys : RentalSystem) : Prop :=
  ∀ rid r, dictGet sys.rentals rid = some r → rentalConsistent sys r

/-- A City scooter as in `main.py` (`hourly_rate` 95 here for the
spec's examples). -/
def cityExample : Scooter := Scooter.init "SC001" "CityModel" 95 95 (ScooterExtra.city 25)

/-- An OffRoad scooter with hourly rate 80. -/
def offRoadExample : Scooter := Scooter.init "SC002" "OffRoadModel" 80 80 (ScooterExtra.off_road "Knobby")

/-- A Foldable scooter with hourly rate 100. -/
def foldableExample : Scooter := Scooter.init "SC003" "FoldableModel" 100 100 (ScooterExtra.foldable 12)

/-- Helper: the Operator -> Manager -> Admin chain approves every
request. -/
theorem handle_always_true (request : RentalChangeRequest) :
    RentalSystem.change_handler.handle request = true := by
  by_cases h1 : request.hours < 4
  · simp [RentalSystem.change_handler, Handler.handle, h1]
  · by_cases h2 : request.scooter.calculate_rental_cost request.hours ≤ 1000 <;>
      simp [RentalSystem.change_handler, Handler.handle, h1, h2]

/-- C1: for the chain built at system start (Operator -> Manager ->
Admin), `handle` returns `true` on every request, whatever its hours
and whatever the scooter's variant and hourly rate. -/
theorem chain_never_denies (request : RentalChangeRequest) :
    RentalSystem.change_handler.handle request = true :=
  handle_always_true request

/-- C2: every City scooter's rental cost is `rate * hours * 0.9` when
`hours > 3` and `rate * hours` otherwise. -/
theorem city_cost_formula (s : Scooter) (ms : ℚ)
    (hext : s.extra = ScooterExtra.city ms) (hours : ℚ) :
    s.calculate_rental_cost hours =
      if hours > 3 then s.hourly_rate * hours * (9/10) else s.hourly_rate * hours := by
  simp [Scooter.calculate_rental_cost, hext, CityScooter.calculate_rental_cost]

/-- C2 witness: rate 95 at 4 hours costs 342 and at 2 hours costs 190. -/
theorem city_cost_formula_witness :
    cityExample.calculate_rental_cost 4 = 342 ∧ cityExample.calculate_rental_cost 2 = 190 := by
  refine ⟨?_, ?_⟩
  · rw [city_cost_formula cityExample 25 rfl 4]
    norm_num [cityExample, Scooter.init]
  · rw [city_cost_formula cityExample 25 rfl 2]
    norm_num [cityExample, Scooter.init]

/-- C3: every OffRoad scooter's rental cost is `rate * hours * 1.15`
and every Foldable scooter's is `rate * hours * 0.95`, for every
duration. -/
theorem offroad_foldable_cost_formula :
    (∀ (s : Scooter) (tt : String) (hours : ℚ), s.extra = ScooterExtra.off_road tt →
      s.calculate_rental_cost hours = s.hourly_rate * hours * (23/20)) ∧
    (∀ (s : Scooter) (w hours : ℚ), s.extra = ScooterExtra.foldable w →
      s.calculate_rental_cost hours = s.hourly_rate * hours * (19/20)) := by
  refine ⟨fun s tt hours hext => ?_, fun s w hours hext => ?_⟩
  · simp [Scooter.calculate_rental_cost, hext, OffRoadScooter.calculate_rental_cost]
  · simp [Scooter.calculate_rental_cost, hext, FoldableScooter.calculate_rental_cost]

/-- C3 witness: OffRoad rate 80 at 2 hours costs 184; Foldable rate 100
at 1 hour costs 95. -/
theorem offroad_foldable_cost_formula_witness :
    offRoadExample.calculate_rental_cost 2 = 184 ∧
    foldableExample.calculate_rental_cost 1 = 95 := by
  refine ⟨?_, ?_⟩
  · rw [offroad_foldable_cost_formula.1 offRoadExample "Knobby" 2 rfl]
    norm_num [offRoadExample, Scooter.init]
  · rw [offroad_foldable_cost_formula.2 foldableExample 12 1 rfl]
    norm_num [foldableExample, Scooter.init]

/-- C4: when the requested hours are at least 4 the Operator escalates;
the chain approves, with the Manager as approving authority exactly
when the scooter's cost at the requested hours is at most 1000, and the
Admin otherwise. -/
theorem manager_level_decision (request : RentalChangeRequest)
    (h4 : 4 ≤ request.hours) :
    RentalSystem.change_handler.handle request = true ∧
    RentalSystem.change_handler.approver request =
      (if request.scooter.calculate_rental_cost request.hours ≤ 1000
       then some Authority.manager else some Authority.admin) := by
  have hlt : ¬ request.hours < 4 := not_lt.mpr h4
  by_cases h2 : request.scooter.calculate_rental_cost request.hours ≤ 1000 <;>
    simp [RentalSystem.change_handler, Handler.handle, Handler.approver, hlt, h2]

/-- C4 witness: a City scooter with rate 95 requested for 5 hours is
costed 427.5, approved, with the Manager as approving authority. -/
theorem manager_level_decision_witness :
    RentalSystem.change_handler.handle ⟨"RT001", 5, cityExample, "CL001"⟩ = true ∧
    RentalSystem.change_handler.approver ⟨"RT001", 5, cityExample, "CL001"⟩ =
      some Authority.manager ∧
    cityExample.calculate_rental_cost 5 = (427.5 : ℚ) := by
  have hcost : cityExample.calculate_rental_cost 5 = (427.5 : ℚ) := by
    rw [city_cost_formula cityExample 25 rfl 5]
    norm_num [cityExample, Scooter.init]
  have h := manager_level_decision ⟨"RT001", 5, cityExample, "CL001"⟩ (by norm_num)
  refine ⟨h.1, ?_, hcost⟩
  rw [h.2]
  simp only [hcost]
  norm_num

/-- C5: a request with hours below 4 is approved at the Operator level,
and the decision and approving authority do not depend on the scooter:
two requests with the same hours below 4 get the identical decision and
authority whatever their scooters. -/
theorem operator_level_noninterference (r1 r2 : RentalChangeRequest)
    (hlt : r1.hours < 4) (heq : r2.hours = r1.hours) :
    RentalSystem.change_handler.handle r1 = true ∧
    RentalSystem.change_handler.approver r1 = some Authority.operator ∧
    RentalSystem.change_handler.handle r2 = RentalSystem.change_handler.handle r1 ∧
    RentalSystem.change_handler.approver r2 = RentalSystem.change_handler.approver r1 := by
  have hlt2 : r2.hours < 4 := heq ▸ hlt
  simp [RentalSystem.change_handler, Handler.handle, Handler.approver, hlt, hlt2]

/-- C5 witness: at 2 hours, a City scooter at rate 95 and an OffRoad
scooter at rate 80 get the same decision and authority (Operator). -/
theorem operator_level_noninterference_witness :
    RentalSystem.change_handler.handle ⟨"RT001", 2, cityExample, "CL001"⟩ = true ∧
    RentalSystem.change_handler.approver ⟨"RT001", 2, cityExample, "CL001"⟩ =
      RentalSystem.change_handler.approver ⟨"RT002", 2, offRoadExample, "CL002"⟩ := by
  have h := operator_level_noninterference ⟨"RT001", 2, cityExample, "CL001"⟩
    ⟨"RT002", 2, offRoadExample, "CL002"⟩ (by norm_num) rfl
  exact ⟨h.1, by rw [h.2.2.2, h.2.1]⟩

/-- C6 counterexample: with the recognised tag `"city"` and the
required `max_speed` present, but an additional unexpected keyword
(`tire_type`) also supplied, the factory call does not return an
instance: the underlying constructor call fails (Python `TypeError`). -/
theorem factory_success_counterexample :
    createSucceeds
      (ScooterFactory.create_scooter "city" "SC001" "M" 50 10 ⟨some 25, some "Knobby", none⟩) = false ∧
    ScooterFactory.create_scooter "city" "SC001" "M" 50 10 ⟨some 25, some "Knobby", none⟩ =
      Except.error CreateError.UnexpectedKeyword := ⟨rfl, rfl⟩

/-- C6 (amended): the factory fails with `UnknownVariant` on an
unrecognised tag, with `MissingParameter` when a recognised tag's
required extra attribute is absent, and returns the corresponding
variant instance when the supplied extra parameters are exactly the
required attribute. -/
theorem factory_validation :
    (∀ t id m (b r : ℚ) kw, strLower t ≠ "city" → strLower t ≠ "off_road" →
      strLower t ≠ "foldable" →
      ScooterFactory.create_scooter t id m b r kw = Except.error CreateError.UnknownVariant) ∧
    (∀ t id m (b r : ℚ) kw, strLower t = "city" → kw.max_speed = none →
      ScooterFactory.create_scooter t id m b r kw = Except.error CreateError.MissingParameter) ∧
    (∀ t id m (b r : ℚ) kw, strLower t = "off_road" → kw.tire_type = none →
      ScooterFactory.create_scooter t id m b r kw = Except.error CreateError.MissingParameter) ∧
    (∀ t id m (b r : ℚ) kw, strLower t = "foldable" → kw.weight = none →
      ScooterFactory.create_scooter t id m b r kw = Except.error CreateError.MissingParameter) ∧
    (∀ t id m (b r ms : ℚ), strLower t = "city" →
      ScooterFactory.create_scooter t id m b r ⟨some ms, none, none⟩ =
        Except.ok (Scooter.init id m b r (ScooterExtra.city ms))) ∧
    (∀ t id m (b r : ℚ) (tt : String), strLower t = "off_road" →
      ScooterFactory.create_scooter t id m b r ⟨none, some tt, none⟩ =
        Except.ok (Scooter.init id m b r (ScooterExtra.off_road tt))) ∧
    (∀ t id m (b r w : ℚ), strLower t = "foldable" →
      ScooterFactory.create_scooter t id m b r ⟨none, none, some w⟩ =
        Except.ok (Scooter.init id m b r (ScooterExtra.foldable w))) := by
  refine ⟨fun t id m b r kw h1 h2 h3 => ?_, fun t id m b r kw h hm => ?_,
    fun t id m b r kw h hm => ?_, fun t id m b r kw h hm => ?_,
    fun t id m b r ms h => ?_, fun t id m b r tt h => ?_, fun t id m b r w h => ?_⟩ <;>
    simp_all [ScooterFactory.create_scooter, ScooterMeta.get_class, ScooterClass.construct]

/-- C6 witness: `"unicycle"` gives `UnknownVariant`, `"off_road"` with
no extra parameters gives `MissingParameter`, `"city"` with exactly
`max_speed` gives the City instance. -/
theorem factory_validation_witness :
    ScooterFactory.create_scooter "unicycle" "SC009" "U" 50 10 ⟨none, none, none⟩ =
      Except.error CreateError.UnknownVariant ∧
    ScooterFactory.create_scooter "off_road" "SC002" "M" 50 10 ⟨none, none, none⟩ =
      Except.error CreateError.MissingParameter ∧
    ScooterFactory.create_scooter "city" "SC001" "M" 50 10 ⟨some 25, none, none⟩ =
      Except.ok (Scooter.init "SC001" "M" 50 10 (ScooterExtra.city 25)) :=
  ⟨factory_validation.1 "unicycle" "SC009" "U" 50 10 ⟨none, none, none⟩
      (by decide) (by decide) (by decide),
   factory_validation.2.2.1 "off_road" "SC002" "M" 50 10 ⟨none, none, none⟩ (by decide) rfl,
   factory_validation.2.2.2.2.1 "city" "SC001" "M" 50 10 25 (by decide)⟩

/-- C7 counterexample: the constructors do not validate the initial
battery level, so the factory produces a scooter whose battery level is
150, outside [0,100]. -/
theorem battery_invariant_counterexample :
    ScooterFactory.create_scooter "city" "SC001" "M" 150 10 ⟨some 25, none, none⟩ =
      Except.ok (Scooter.init "SC001" "M" 150 10 (ScooterExtra.city 25)) ∧
    (Scooter.init "SC001" "M" 150 10 (ScooterExtra.city 25)).battery_level = 150 ∧
    ¬ ((150 : ℚ) ≤ 100) := ⟨rfl, rfl, by decide⟩

/-- C7 (amended): every scooter constructed with an initial battery
level in [0,100] has battery level in [0,100], and every operation
keeps it there: the battery setter (also when it rejects the write),
the availability setter, and renting through a station. -/
theorem battery_invariant_preserved :
    (∀ id m (b r : ℚ) e, 0 ≤ b → b ≤ 100 →
      0 ≤ (Scooter.init id m b r e).battery_level ∧
      (Scooter.init id m b r e).battery_level ≤ 100) ∧
    (∀ t id m (b r : ℚ) kw sc, 0 ≤ b → b ≤ 100 →
      ScooterFactory.create_scooter t id m b r kw = Except.ok sc →
      0 ≤ sc.battery_level ∧ sc.battery_level ≤ 100) ∧
    (∀ (s : Scooter) (v : ℚ), 0 ≤ s.battery_level → s.battery_level ≤ 100 →
      0 ≤ (s.set_battery_level v).2.battery_level ∧
      (s.set_battery_level v).2.battery_level ≤ 100) ∧
    (∀ (s : Scooter) (b : Bool), (s.set_is_available b).battery_level = s.battery_level) ∧
    (∀ xs sid (hrs c : ℚ) xs', rentLoop xs sid hrs = Except.ok (c, xs') →
      ∀ s' ∈ xs', ∃ s ∈ xs, s'.battery_level = s.battery_level) := by
  refine ⟨fun id m b r e hb0 hb1 => ⟨hb0, hb1⟩,
    fun t id m b r kw sc hb0 hb1 hok => ?_,
    fun s v h0 h1 => ?_,
    fun s b => rfl,
    fun xs sid hrs c xs' hok => ?_⟩
  · cases hget : ScooterMeta.get_class t with
    | none => simp [ScooterFactory.create_scooter, hget] at hok
    | some cls =>
      obtain ⟨ms, tt, w⟩ := kw
      cases cls <;> cases ms <;> cases tt <;> cases w <;>
        simp_all [ScooterFactory.create_scooter, hget, ScooterClass.construct, Scooter.init] <;>
        exact hok ▸ ⟨hb0, hb1⟩
  · unfold Scooter.set_battery_level
    by_cases hv : ¬ (0 ≤ v ∧ v ≤ 100)
    · simp [hv]
      exact ⟨h0, h1⟩
    · push_neg at hv
      simp [hv.1, hv.2]
  · induction xs generalizing c xs' with
    | nil => simp [rentLoop] at hok
    | cons scooter rest ih =>
      by_cases hid : scooter.scooter_id = sid
      · by_cases hav : scooter.is_available
        · simp [rentLoop, hid, hav] at hok
          intro s' hs'
          rw [← hok.2] at hs'
          rcases List.mem_cons.mp hs' with h | h
          · exact ⟨scooter, List.mem_cons_self _ _, by rw [h]; rfl⟩
          · exact ⟨s', List.mem_cons_of_mem _ h, rfl⟩
        · simp [rentLoop, hid, hav] at hok
      · simp only [rentLoop, hid, if_false, ite_false] at hok
        cases hrec : rentLoop rest sid hrs with
        | error e => rw [hrec] at hok; simp at hok
        | ok p =>
          obtain ⟨c0, rest'⟩ := p
          rw [hrec] at hok
          simp at hok
          intro s' hs'
          rw [← hok.2] at hs'
          rcases List.mem_cons.mp hs' with h | h
          · exact ⟨scooter, List.mem_cons_self _ _, by rw [h]⟩
          · obtain ⟨s, hs, hb⟩ := ih c0 rest' hrec s' h
            exact ⟨s, List.mem_cons_of_mem _ hs, hb⟩

/-- C7 witness: the setter clause at a scooter with battery 95 and a
rejected write of 101, and the factory clause at initial battery 50. -/
theorem battery_invariant_preserved_witness :
    (0 ≤ (cityExample.set_battery_level 101).2.battery_level ∧
      (cityExample.set_battery_level 101).2.battery_level ≤ 100) ∧
    (0 ≤ (Scooter.init "SC001" "M" 50 10 (ScooterExtra.city 25)).battery_level ∧
      (Scooter.init "SC001" "M" 50 10 (ScooterExtra.city 25)).battery_level ≤ 100) :=
  ⟨battery_invariant_preserved.2.2.1 cityExample 101 (by decide) (by decide),
   battery_invariant_preserved.2.1 "city" "SC001" "M" 50 10 ⟨some 25, none, none⟩
     (Scooter.init "SC001" "M" 50 10 (ScooterExtra.city 25)) (by decide) (by decide) rfl⟩

/-- C8: the battery setter rejects every value outside [0,100] with
`InvalidBatteryLevel`, leaving the whole object state (in particular
the prior battery level) unchanged, and accepts exactly 0 and exactly
100. -/
theorem battery_setter_boundaries (s : Scooter) (v : ℚ) :
    (¬ (0 ≤ v ∧ v ≤ 100) →
      s.set_battery_level v = (some BatteryError.InvalidBatteryLevel, s)) ∧
    s.set_battery_level 0 = (none, { s with battery_level := 0 }) ∧
    s.set_battery_level 100 = (none, { s with battery_level := 100 }) := by
  refine ⟨fun h => by simp [Scooter.set_battery_level, h], ?_, ?_⟩ <;>
    simp [Scooter.set_battery_level]

/-- C8 witness: writes of 101 and -1 to a scooter with battery 95 fail
with `InvalidBatteryLevel` and leave the object unchanged; writes of 0
and 100 succeed. -/
theorem battery_setter_boundaries_witness :
    cityExample.set_battery_level 101 = (some BatteryError.InvalidBatteryLevel, cityExample) ∧
    cityExample.set_battery_level (-1) = (some BatteryError.InvalidBatteryLevel, cityExample) ∧
    cityExample.set_battery_level 0 = (none, { cityExample with battery_level := 0 }) ∧
    cityExample.set_battery_level 100 = (none, { cityExample with battery_level := 100 }) :=
  ⟨(battery_setter_boundaries cityExample 101).1 (by decide),
   (battery_setter_boundaries cityExample (-1)).1 (by decide),
   (battery_setter_boundaries cityExample 0).2.1,
   (battery_setter_boundaries cityExample 100).2.2⟩

/-- Helper: `calculate_rental_cost` does not depend on the
availability flag. -/
theorem calculate_rental_cost_set_is_available (s : Scooter) (b : Bool) (hours : ℚ) :
    (s.set_is_available b).calculate_rental_cost hours = s.calculate_rental_cost hours := by
  cases hext : s.extra <;>
    simp [Scooter.calculate_rental_cost, Scooter.set_is_available, hext,
      CityScooter.calculate_rental_cost, OffRoadScooter.calculate_rental_cost,
      FoldableScooter.calculate_rental_cost]

/-- Helper: lookup after a dict assignment. -/
theorem dictGet_dictSet {α : Type} (d : List (String × α)) (k : String) (v : α) (k' : String) :
    dictGet (dictSet d k v) k' = if k = k' then some v else dictGet d k' := by
  induction d with
  | nil => by_cases h : k = k' <;> simp [dictSet, dictGet, h]
  | cons p rest ih =>
    obtain ⟨k0, v0⟩ := p
    by_cases h0 : k0 = k
    · subst h0
      by_cases h : k0 = k' <;> simp [dictSet, dictGet, h]
    · by_cases h : k0 = k'
      · subst h
        have hne : ¬ k = k0 := fun hkk => h0 hkk.symm
        simp [dictSet, dictGet, h0, hne]
      · simp [dictSet, dictGet, h0, h, ih]

/-- Helper: what a successful `rentLoop` run did: it located the first
scooter with the requested id, that scooter was available, the returned
cost is that scooter's rental cost (after its availability was
flipped), and the fleet is unchanged except that this first occurrence
now has `is_available = false`. -/
theorem rentLoop_spec (xs : List Scooter) (sid : String) (hrs c : ℚ) (xs' : List Scooter)
    (hok : rentLoop xs sid hrs = Except.ok (c, xs')) :
    ∃ s0, findScooter xs sid = some s0 ∧ s0.is_available = true ∧
      c = (s0.set_is_available false).calculate_rental_cost hrs ∧
      findScooter xs' sid = some (s0.set_is_available false) ∧
      ∀ sid', sid' ≠ sid → findScooter xs' sid' = findScooter xs sid' := by
  induction xs generalizing c xs' with
  | nil => simp [rentLoop] at hok
  | cons scooter rest ih =>
    by_cases hid : scooter.scooter_id = sid
    · by_cases hav : scooter.is_available
      · simp [rentLoop, hid, hav] at hok
        refine ⟨scooter, by simp [findScooter, hid], hav, hok.1.symm, ?_, ?_⟩
        · rw [← hok.2]
          simp [findScooter, Scooter.set_is_available, hid]
        · intro sid' hne
          rw [← hok.2]
          have hns : ¬ sid = sid' := fun hh => hne hh.symm
          simp [findScooter, Scooter.set_is_available, hid, hns]
      · simp [rentLoop, hid, hav] at hok
    · rw [rentLoop] at hok
      simp only [hid, if_false, ite_false] at hok
      cases hrec : rentLoop rest sid hrs with
      | error e => rw [hrec] at hok; simp at hok
      | ok p =>
        obtain ⟨c0, rest'⟩ := p
        rw [hrec] at hok
        simp at hok
        obtain ⟨s0, hfind, hav, hcost, hfind', hother⟩ := ih c0 rest' hrec
        refine ⟨s0, by simp [findScooter, hid, hfind], hav, hok.1 ▸ hcost, ?_, ?_⟩
        · rw [← hok.2]
          simp [findScooter, hid, hfind']
        · intro sid' hne
          rw [← hok.2]
          by_cases hh : scooter.scooter_id = sid' <;>
            simp [findScooter, hh, hother sid' hne]

/-- Helper: rental-record consistency only looks at the stations map,
so it transfers between systems with equal stations. -/
theorem rentalConsistent_congr (sys sys' : RentalSystem) (r : Rental)
    (hst : sys'.stations = sys.stations) (h : rentalConsistent sys r) :
    rentalConsistent sys' r := by
  intro st hget sc hfind
  exact h st (by rw [← hst]; exact hget) sc hfind

/-- C9: when `process_rental_change` finds the rental, its station and
its scooter and the chain approves, the resulting state rewrites
exactly that rental record's hours to the requested value and its cost
to the scooter's price at those hours; the stations (hence every
scooter, including its availability), the clients and all other rental
records are unchanged. -/
theorem process_rental_change_frame (sys : RentalSystem) (rid : String) (nh : ℚ)
    (sys' : RentalSystem)
    (h : sys.process_rental_change rid nh = Except.ok (true, sys')) :
    sys'.stations = sys.stations ∧ sys'.clients = sys.clients ∧
    ∃ rental st scooter,
      dictGet sys.rentals rid = some rental ∧
      dictGet sys.stations rental.station_id = some st ∧
      findScooter st.scooters rental.scooter_id = some scooter ∧
      dictGet sys'.rentals rid =
        some { rental with hours := nh, cost := scooter.calculate_rental_cost nh } ∧
      ∀ rid2, rid2 ≠ rid → dictGet sys'.rentals rid2 = dictGet sys.rentals rid2 := by
  cases hrent : dictGet sys.rentals rid with
  | none => simp [RentalSystem.process_rental_change, hrent] at h
  | some rental =>
  cases hst : dictGet sys.stations rental.station_id with
  | none => simp [RentalSystem.process_rental_change, hrent, hst] at h
  | some st =>
  cases hsc : findScooter st.scooters rental.scooter_id with
  | none => simp [RentalSystem.process_rental_change, hrent, hst, hsc] at h
  | some scooter =>
    simp only [RentalSystem.process_rental_change, hrent, hst, hsc, handle_always_true,
      ite_true, Except.ok.injEq, Prod.mk.injEq, true_and] at h
    subst h
    refine ⟨rfl, rfl, rental, st, scooter, rfl, hst, hsc, ?_, ?_⟩
    · simp [dictGet_dictSet]
    · intro rid2 hne
      have hns : ¬ rid = rid2 := fun hh => hne hh.symm
      simp [dictGet_dictSet, hns]

/-- A concrete location. -/
def locationExample : Location := ⟨"Lenina 10", 55, 37⟩

/-- A station holding the City and OffRoad example scooters. -/
def stationExample : RentalStation :=
  ⟨"ST001", locationExample, 5, [cityExample, offRoadExample]⟩

/-- A system with one station, one client and no rentals. -/
def systemExample : RentalSystem :=
  ⟨[("ST001", stationExample)], [("CL001", ⟨"Ivan Petrov", "+79991234567"⟩)], []⟩

/-- The system after renting the City scooter for 2 hours. -/
def systemAfterAdd : RentalSystem :=
  match systemExample.add_rental "RT001" "CL001" "ST001" "SC001" 2 with
  | Except.ok s => s
  | Except.error _ => systemExample

/-- The system after changing that rental to 3 hours. -/
def systemAfterChange : RentalSystem :=
  match systemAfterAdd.process_rental_change "RT001" 3 with
  | Except.ok p => p.2
  | Except.error _ => systemAfterAdd

/-- C9 witness: changing the concrete rental leaves the stations (and
so every scooter) and the clients untouched. -/
theorem process_rental_change_frame_witness :
    systemAfterChange.stations = systemAfterAdd.stations ∧
    systemAfterChange.clients = systemAfterAdd.clients :=
  ⟨(process_rental_change_frame systemAfterAdd "RT001" 3 systemAfterChange rfl).1,
   (process_rental_change_frame systemAfterAdd "RT001" 3 systemAfterChange rfl).2.1⟩

/-- C10: every system without rentals satisfies the cost-consistency
invariant, and both `add_rental` and `process_rental_change` preserve
it: each stored rental's cost is the referenced scooter's
`calculate_rental_cost` at the stored hours. -/
theorem rental_cost_consistency :
    (∀ sys : RentalSystem, sys.rentals = [] → Inv sys) ∧
    (∀ (sys : RentalSystem) (rid cid sid scid : String) (hrs : ℚ) (sys' : RentalSystem),
      Inv sys → sys.add_rental rid cid sid scid hrs = Except.ok sys' → Inv sys') ∧
    (∀ (sys : RentalSystem) (rid : String) (hrs : ℚ) (b : Bool) (sys' : RentalSystem),
      Inv sys → sys.process_rental_change rid hrs = Except.ok (b, sys') → Inv sys') := by
  refine ⟨?_, ?_, ?_⟩
  · intro sys hempty rid r hget
    rw [hempty] at hget
    simp [dictGet] at hget
  · intro sys rid cid sid scid hrs sys' hinv hok
    cases hst : dictGet sys.stations sid with
    | none => simp [RentalSystem.add_rental, hst] at hok
    | some station =>
    cases hsc : findScooter station.scooters scid with
    | none => simp [RentalSystem.add_rental, hst, hsc] at hok
    | some scooter =>
    by_cases hav : scooter.is_available
    · cases hrl : rentLoop station.scooters scid hrs with
      | error e =>
        simp [RentalSystem.add_rental, RentalStation.rent_scooter, hst, hsc, hav, hrl] at hok
      | ok p =>
        obtain ⟨cost, scooters'⟩ := p
        simp only [RentalSystem.add_rental, RentalStation.rent_scooter, hst, hsc, hav,
          not_true_eq_false, if_false, ite_false, hrl, Except.ok.injEq] at hok
        subst hok
        obtain ⟨s0, hfind0, hav0, hcost0, hfind0', hother⟩ :=
          rentLoop_spec station.scooters scid hrs cost scooters' hrl
        have hs0 : s0 = scooter := by
          rw [hfind0] at hsc
          exact Option.some.inj hsc
        subst hs0
        intro rid2 r2 hget2
        simp only [dictGet_dictSet] at hget2
        by_cases hr : rid = rid2
        · rw [if_pos hr] at hget2
          obtain rfl := (Option.some.inj hget2).symm
          intro st2 hst2 sc2 hsc2
          simp only [dictGet_dictSet, if_pos rfl] at hst2
          obtain rfl := (Option.some.inj hst2).symm
          simp only at hsc2
          rw [hfind0'] at hsc2
          obtain rfl := (Option.some.inj hsc2).symm
          exact hcost0
        · rw [if_neg hr] at hget2
          have hcons := hinv rid2 r2 hget2
          intro st2 hst2 sc2 hsc2
          simp only [dictGet_dictSet] at hst2
          by_cases hsid : sid = r2.station_id
          · rw [if_pos hsid] at hst2
            obtain rfl := (Option.some.inj hst2).symm
            simp only at hsc2
            by_cases hscid : r2.scooter_id = scid
            · rw [hscid, hfind0'] at hsc2
              obtain rfl := (Option.some.inj hsc2).symm
              have hold := hcons station (by rw [← hsid]; exact hst) s0
                (by rw [hscid]; exact hsc)
              rw [hold, calculate_rental_cost_set_is_available]
            · rw [hother r2.scooter_id hscid] at hsc2
              exact hcons station (by rw [← hsid]; exact hst) sc2 hsc2
          · rw [if_neg hsid] at hst2
            exact hcons st2 hst2 sc2 hsc2
    · simp [RentalSystem.add_rental, hst, hsc, hav] at hok
  · intro sys rid hrs b sys' hinv hok
    cases hrent : dictGet sys.rentals rid with
    | none => simp [RentalSystem.process_rental_change, hrent] at hok
    | some rental =>
    cases hst : dictGet sys.stations rental.station_id with
    | none => simp [RentalSystem.process_rental_change, hrent, hst] at hok
    | some st =>
    cases hsc : findScooter st.scooters rental.scooter_id with
    | none => simp [RentalSystem.process_rental_change, hrent, hst, hsc] at hok
    | some scooter =>
      simp only [RentalSystem.process_rental_change, hrent, hst, hsc, handle_always_true,
        ite_true, Except.ok.injEq, Prod.mk.injEq] at hok
      obtain ⟨hb, hsys⟩ := hok
      subst hsys
      intro rid2 r2 hget2
      simp only [dictGet_dictSet] at hget2
      by_cases hr : rid = rid2
      · rw [if_pos hr] at hget2
        obtain rfl := (Option.some.inj hget2).symm
        intro st2 hst2 sc2 hsc2
        simp only at hst2 hsc2
        rw [hst] at hst2
        obtain rfl := (Option.some.inj hst2).symm
        rw [hsc] at hsc2
        obtain rfl := (Option.some.inj hsc2).symm
        rfl
      · rw [if_neg hr] at hget2
        exact rentalConsistent_congr sys _ r2 rfl (hinv rid2 r2 hget2)

/-- C10 witness: the invariant holds after the concrete `add_rental`
and after the subsequent `process_rental_change`. -/
theorem rental_cost_consistency_witness : Inv systemAfterAdd ∧ Inv systemAfterChange := by
  have h0 : Inv systemExample := rental_cost_consistency.1 systemExample rfl
  have h1 : Inv systemAfterAdd :=
    rental_cost_consistency.2.1 systemExample "RT001" "CL001" "ST001" "SC001" 2
      systemAfterAdd h0 rfl
  have h2 : Inv systemAfterChange :=
    rental_cost_consistency.2.2 systemAfterAdd "RT001" 3 true systemAfterChange h1 rfl
  exact ⟨h1, h2⟩

end ScooterService
